import Mathlib

/-!
Shallow embedding of the CELL-EVOLUTION simulation core
(`src/cell_genesis/core/physics.py` and `src/cell_genesis/core/cell.py`).

Numbers are modelled as exact rationals (`ℚ`).  The only irrational
operation in the source is `math.hypot`; every place the source computes
`hypot(a, b)` the embedding takes an oracle `sq : ℚ → ℚ` applied to the
squared magnitude `a^2 + b^2`, and theorems hypothesise exactly the facts
a square root satisfies at the points where it is used
(`0 ≤ sq v` and `(sq v)^2 = v`).  The zone-collision test only *compares*
a hypotenuse against a radius sum, so there it is embedded as the exact
truth value of that real comparison (`0 < r ∧ d2 < r^2`), and a bridging
theorem relates it to `Real.sqrt`.
-/

namespace CellEvolution

/-- Module-level constants of physics.py. -/
def SCREEN_WIDTH : ℚ := 1000

def SCREEN_HEIGHT : ℚ := 700

def PLAYER_RADIUS : ℚ := 20

def SLOW_ZONE_RADIUS : ℚ := 60

/-- Keys that can appear in the pressed-key set.  The eight mapped keys of
`direction_map` get their own constructors; `other n` stands for any other
key code. -/
inductive Key where
  | W | S | A | D | UP | DOWN | LEFT | RIGHT
  | other (code : ℕ)
deriving DecidableEq

/-- `direction_map` of `Player.handle_input`: key ↦ (dx, dy). -/
def direction_map : Key → Option (ℚ × ℚ)
  | .W => some (0, 1)
  | .S => some (0, -1)
  | .A => some (-1, 0)
  | .D => some (1, 0)
  | .UP => some (0, 1)
  | .DOWN => some (0, -1)
  | .LEFT => some (-1, 0)
  | .RIGHT => some (1, 0)
  | .other _ => none

/-- The mutable state of class `Player`. -/
structure Player where
  center_x : ℚ
  center_y : ℚ
  radius : ℚ
  velocity_x : ℚ
  velocity_y : ℚ
  friction : ℚ
  target_velocity_x : ℚ
  target_velocity_y : ℚ
  acceleration_rate : ℚ
  deceleration_rate : ℚ
  current_max_speed : ℚ
  energy : ℚ
  max_energy : ℚ
  in_slow_zone : Bool
  energy_consumption : ℚ
  base_speed : ℚ
  target_max_speed : ℚ
deriving DecidableEq

/-- `self.energy_speed_levels`: list of (min energy, max energy, speed). -/
def energy_speed_levels : List (ℚ × ℚ × ℚ) :=
  [(80, 100, 10), (60, 80, 8), (40, 60, 6), (20, 40, 4), (1, 20, 2), (0, 1, 1)]

/-- The for/else scan of `Player.update_speed`: first level whose half-open
range `min_e ≤ energy < max_e` contains `energy`; the for-else default is 1. -/
def lookupSpeed (energy : ℚ) : List (ℚ × ℚ × ℚ) → ℚ
  | [] => 1
  | (min_e, max_e, speed) :: rest =>
      if min_e ≤ energy ∧ energy < max_e then speed else lookupSpeed energy rest

/-- `Player.update_speed`: sets `base_speed` from the tier scan, then
`target_max_speed = max(base_speed - (2 if in_slow_zone else 0), 1)`. -/
def Player.update_speed (p : Player) : Player :=
  let bs := lookupSpeed p.energy energy_speed_levels
  { p with base_speed := bs
           target_max_speed := max (bs - (if p.in_slow_zone then 2 else 0)) 1 }

/-- One iteration of the `for key in pressed_keys` loop of
`Player.handle_input`. -/
def inputStep (q : Player) (k : Key) : Player :=
  match direction_map k with
  | some (dx, dy) =>
      { q with target_velocity_x := q.target_velocity_x + dx * q.current_max_speed
               target_velocity_y := q.target_velocity_y + dy * q.current_max_speed }
  | none => q

/-- `Player.handle_input`: reset both target velocities to 0, then fold the
per-key contributions over the pressed-key snapshot. -/
def Player.handle_input (p : Player) (pressed_keys : List Key) : Player :=
  pressed_keys.foldl inputStep
    { p with target_velocity_x := 0, target_velocity_y := 0 }

/-- Step 2 of `Player.update`: ramp `current_max_speed` toward
`target_max_speed` by at most the acceleration rate up / deceleration rate
down.  Only `current_max_speed` is assigned. -/
def Player.rampMaxSpeed (p : Player) : Player :=
  { p with current_max_speed :=
      if p.current_max_speed < p.target_max_speed then
        min (p.current_max_speed + p.acceleration_rate) p.target_max_speed
      else if p.current_max_speed > p.target_max_speed then
        max (p.current_max_speed - p.deceleration_rate) p.target_max_speed
      else p.current_max_speed }

/-- Step 3 of `Player.update` for one axis: pick the acceleration rate when
the target is non-zero and the deceleration rate otherwise, and move toward
the target only when the gap exceeds the 0.1 dead zone. -/
def axisStep (acc dec current target : ℚ) : ℚ :=
  let rate := if target ≠ 0 then acc else dec
  if |current - target| > 1/10 then current + (target - current) * rate
  else current

/-- Step 3 of `Player.update` applied to both axes. -/
def Player.updateVelocities (p : Player) : Player :=
  { p with
      velocity_x :=
        axisStep p.acceleration_rate p.deceleration_rate p.velocity_x p.target_velocity_x
      velocity_y :=
        axisStep p.acceleration_rate p.deceleration_rate p.velocity_y p.target_velocity_y }

/-- Step 4 of `Player.update`: when both target components are zero,
multiply both velocity components by the friction coefficient. -/
def Player.applyFriction (p : Player) : Player :=
  if p.target_velocity_x = 0 ∧ p.target_velocity_y = 0 then
    { p with velocity_x := p.velocity_x * p.friction
             velocity_y := p.velocity_y * p.friction }
  else p

/-- Steps 1-4 of `Player.update`, up to the point where
`speed = math.hypot(velocity_x, velocity_y)` is sampled. -/
def Player.preClamp (p : Player) : Player :=
  ((p.update_speed).rampMaxSpeed).updateVelocities.applyFriction

/-- Step 5 of `Player.update`: if `speed > current_max_speed`, scale both
velocity components by `current_max_speed / speed`. -/
def Player.clampVelocity (speed : ℚ) (p : Player) : Player :=
  if speed > p.current_max_speed then
    { p with velocity_x := p.velocity_x * (p.current_max_speed / speed)
             velocity_y := p.velocity_y * (p.current_max_speed / speed) }
  else p

/-- Step 6 of `Player.update`: consume `speed * energy_consumption` (floored
at 0) when `speed > 0.1`; otherwise passively recover 0.2 (capped at
`max_energy`) when below the maximum.  Only `energy` is assigned. -/
def Player.updateEnergy (speed : ℚ) (p : Player) : Player :=
  { p with energy :=
      if speed > 1/10 then max 0 (p.energy - speed * p.energy_consumption)
      else if p.energy < p.max_energy then min p.max_energy (p.energy + 1/5)
      else p.energy }

/-- Step 7 of `Player.update`: integrate the position. -/
def Player.integrate (p : Player) : Player :=
  { p with center_x := p.center_x + p.velocity_x
           center_y := p.center_y + p.velocity_y }

/-- `Player.update`: steps 1-4, then sample
`speed = hypot(velocity_x, velocity_y)` (modelled as the oracle `sq`
applied to the squared magnitude), then clamp, energy, position.
The same sampled `speed` is used by both the clamp and the energy system,
exactly as in the source. -/
def Player.update (sq : ℚ → ℚ) (p : Player) : Player :=
  let p4 := p.preClamp
  let speed := sq (p4.velocity_x ^ 2 + p4.velocity_y ^ 2)
  (Player.updateEnergy speed (Player.clampVelocity speed p4)).integrate

/-- `Player.__init__`, including the trailing `self.update_speed()` call.
`base_speed` and `target_max_speed` do not exist before that call; the
placeholder 0 is overwritten by it. -/
def Player.init : Player :=
  Player.update_speed
    { center_x := 0, center_y := 0, radius := PLAYER_RADIUS
      velocity_x := 0, velocity_y := 0, friction := 92/100
      target_velocity_x := 0, target_velocity_y := 0
      acceleration_rate := 1/5, deceleration_rate := 3/10
      current_max_speed := 0
      energy := 100, max_energy := 100
      in_slow_zone := false, energy_consumption := 1/200
      base_speed := 0, target_max_speed := 0 }

/-- Class `SlowZone` (the drawing color is irrelevant to the dynamics). -/
structure SlowZone where
  center_x : ℚ
  center_y : ℚ
  radius : ℚ
deriving DecidableEq

/-- `SlowZone.__init__(x, y)`: the radius is always `SLOW_ZONE_RADIUS`. -/
def SlowZone.make (x y : ℚ) : SlowZone :=
  { center_x := x, center_y := y, radius := SLOW_ZONE_RADIUS }

/-- `SlowZone.check_collision`: the source returns
`hypot(px - cx, py - cy) < player_radius + radius`.  Since the hypotenuse of
rationals is compared (never stored), the embedding is the exact truth
value of that real comparison: with `d2` the squared distance and `r` the
radius sum, `sqrt d2 < r` holds precisely when `0 < r ∧ d2 < r^2`
(see `check_collision_iff_sqrt`). -/
def SlowZone.check_collision (z : SlowZone) (player_x player_y player_radius : ℚ) : Bool :=
  decide (0 < player_radius + z.radius ∧
    (player_x - z.center_x) ^ 2 + (player_y - z.center_y) ^ 2
      < (player_radius + z.radius) ^ 2)

/-- The state of `MyGame` relevant to the dynamics. -/
structure MyGame where
  player : Player
  slow_zones : List SlowZone
  pressed_keys : List Key
  camera_x : ℚ
  camera_y : ℚ
deriving DecidableEq

/-- `MyGame.setup` (the zone list is produced by an external random source;
the embedding consumes it as a parameter): fresh player, given zones, and
the camera centred exactly on the player
(`camera = player.center - screen/2`; 1000 // 2 = 500 and 700 // 2 = 350
exactly). -/
def MyGame.setup (zones : List SlowZone) : MyGame :=
  { player := Player.init
    slow_zones := zones
    pressed_keys := []
    camera_x := Player.init.center_x - SCREEN_WIDTH / 2
    camera_y := Player.init.center_y - SCREEN_HEIGHT / 2 }

/-- `MyGame.update_camera`: exponential interpolation of the camera toward
`player.center - screen/2` with factor 0.1. -/
def MyGame.update_camera (g : MyGame) : MyGame :=
  let target_x := g.player.center_x - SCREEN_WIDTH / 2
  let target_y := g.player.center_y - SCREEN_HEIGHT / 2
  { g with camera_x := g.camera_x + (target_x - g.camera_x) * (1/10)
           camera_y := g.camera_y + (target_y - g.camera_y) * (1/10) }

/-- `MyGame.check_slow_zones`: `player.in_slow_zone = any(zone.check_collision ...)`. -/
def MyGame.check_slow_zones (g : MyGame) : MyGame :=
  let hit : Bool :=
    g.slow_zones.any (fun z =>
      z.check_collision g.player.center_x g.player.center_y g.player.radius)
  { g with player := { g.player with in_slow_zone := hit } }

/-- `MyGame.on_update`: handle_input, player.update, check_slow_zones,
update_camera, in that fixed order. -/
def MyGame.on_update (sq : ℚ → ℚ) (g : MyGame) : MyGame :=
  let g1 := { g with player := g.player.handle_input g.pressed_keys }
  let g2 := { g1 with player := g1.player.update sq }
  (g2.check_slow_zones).update_camera

/-- The basic organism of `cell.py`. -/
structure Cell where
  x : ℚ
  y : ℚ
  vx : ℚ
  vy : ℚ
  energy : ℚ
  radius : ℚ
  gene_speed : ℚ
  gene_size : ℚ
  metabolism_cost : ℚ
deriving DecidableEq

/-- `Cell.__init__`: genes default to 1.0 and `metabolism_cost` to 0.5. -/
def Cell.init (x y vx vy energy radius : ℚ) : Cell :=
  { x := x, y := y, vx := vx, vy := vy, energy := energy, radius := radius
    gene_speed := 1, gene_size := 1, metabolism_cost := 1/2 }

/-- `Cell.update`: subtract the metabolism cost (no clamp), move by
velocity times the speed gene, recompute the radius from the size gene. -/
def Cell.update (c : Cell) : Cell :=
  { c with energy := c.energy - c.metabolism_cost
           x := c.x + c.vx * c.gene_speed
           y := c.y + c.vy * c.gene_speed
           radius := 5 * c.gene_size }

/-- `Cell.add_energy`: add the amount with no upper clamp. -/
def Cell.add_energy (c : Cell) (amount : ℚ) : Cell :=
  { c with energy := c.energy + amount }

/-- `Cell.is_alive`: strictly positive energy. -/
def Cell.is_alive (c : Cell) : Bool :=
  decide (c.energy > 0)

/-- Net direction summed over a key list, as accumulated by the
`handle_input` loop. -/
def dirSum : List Key → ℚ × ℚ
  | [] => (0, 0)
  | k :: ks =>
      match direction_map k with
      | some (dx, dy) => ((dirSum ks).1 + dx, (dirSum ks).2 + dy)
      | none => dirSum ks

/-! ### Helper lemmas -/

lemma foldl_inputStep_eq (ks : List Key) : ∀ q : Player,
    ks.foldl inputStep q =
      { q with target_velocity_x := q.target_velocity_x + (dirSum ks).1 * q.current_max_speed
               target_velocity_y := q.target_velocity_y + (dirSum ks).2 * q.current_max_speed } := by
  induction ks with
  | nil => intro q; simp [dirSum]
  | cons k ks ih =>
      intro q
      rw [List.foldl_cons, ih]
      cases hk : direction_map k with
      | none => simp only [inputStep, hk, dirSum]
      | some d =>
          obtain ⟨dx, dy⟩ := d
          simp only [inputStep, hk, dirSum]
          congr 1 <;> ring

/-- `handle_input` only assigns the two target-velocity fields: they become
the summed per-key direction contributions scaled by the current
`current_max_speed`. -/
lemma handle_input_eq (p : Player) (ks : List Key) :
    p.handle_input ks =
      { p with target_velocity_x := (dirSum ks).1 * p.current_max_speed
               target_velocity_y := (dirSum ks).2 * p.current_max_speed } := by
  unfold Player.handle_input
  rw [foldl_inputStep_eq]
  simp

/-- `applyFriction` written as a single record update. -/
lemma applyFriction_eq (p : Player) : p.applyFriction =
    { p with
        velocity_x :=
          if p.target_velocity_x = 0 ∧ p.target_velocity_y = 0 then p.velocity_x * p.friction
          else p.velocity_x
        velocity_y :=
          if p.target_velocity_x = 0 ∧ p.target_velocity_y = 0 then p.velocity_y * p.friction
          else p.velocity_y } := by
  unfold Player.applyFriction
  split
  case isTrue h => simp [h]
  case isFalse h => simp [h]

/-- `clampVelocity` written as a single record update. -/
lemma clampVelocity_eq (speed : ℚ) (p : Player) : p.clampVelocity speed =
    { p with
        velocity_x :=
          if speed > p.current_max_speed then p.velocity_x * (p.current_max_speed / speed)
          else p.velocity_x
        velocity_y :=
          if speed > p.current_max_speed then p.velocity_y * (p.current_max_speed / speed)
          else p.velocity_y } := by
  unfold Player.clampVelocity
  split
  case isTrue h => simp [h]
  case isFalse h => simp [h]

lemma update_speed_tms_ge_one (p : Player) : 1 ≤ (p.update_speed).target_max_speed :=
  le_max_right _ _

/-- After steps 1-4 the speed ceiling is still nonnegative, provided it was
nonnegative before the step and the acceleration rate is nonnegative. -/
lemma preClamp_cms_nonneg (p : Player) (hcms : 0 ≤ p.current_max_speed)
    (hacc : 0 ≤ p.acceleration_rate) : 0 ≤ (p.preClamp).current_max_speed := by
  have htms : (1 : ℚ) ≤ (p.update_speed).target_max_speed := update_speed_tms_ge_one p
  unfold Player.preClamp Player.rampMaxSpeed
  rw [applyFriction_eq]
  simp only [Player.updateVelocities]
  split
  case isTrue h => exact le_min (by positivity) (by linarith)
  case isFalse h =>
      split
      case isTrue h2 => exact le_trans (by linarith) (le_max_right _ _)
      case isFalse h2 => exact hcms

/-- The clamp step bounds the squared velocity magnitude by the squared
ceiling, given that `speed` is the true square root of the squared
magnitude. -/
lemma clampVelocity_sq_le (speed : ℚ) (p : Player) (hcms : 0 ≤ p.current_max_speed)
    (h0 : 0 ≤ speed) (h2 : speed ^ 2 = p.velocity_x ^ 2 + p.velocity_y ^ 2) :
    (p.clampVelocity speed).velocity_x ^ 2 + (p.clampVelocity speed).velocity_y ^ 2
      ≤ p.current_max_speed ^ 2 := by
  rw [clampVelocity_eq]
  simp only
  split
  case isTrue h =>
      have hs : 0 < speed := lt_of_le_of_lt hcms h
      have key : (p.velocity_x * (p.current_max_speed / speed)) ^ 2
          + (p.velocity_y * (p.current_max_speed / speed)) ^ 2
          = p.current_max_speed ^ 2 := by
        have : (p.velocity_x ^ 2 + p.velocity_y ^ 2) * (p.current_max_speed / speed) ^ 2
            = p.current_max_speed ^ 2 := by
          rw [← h2]
          field_simp
        calc (p.velocity_x * (p.current_max_speed / speed)) ^ 2
              + (p.velocity_y * (p.current_max_speed / speed)) ^ 2
            = (p.velocity_x ^ 2 + p.velocity_y ^ 2) * (p.current_max_speed / speed) ^ 2 := by ring
          _ = p.current_max_speed ^ 2 := this
      rw [key]
  case isFalse h =>
      have hle : speed ≤ p.current_max_speed := le_of_not_lt h
      calc p.velocity_x ^ 2 + p.velocity_y ^ 2 = speed ^ 2 := h2.symm
        _ ≤ p.current_max_speed ^ 2 := by
            exact pow_le_pow_left₀ h0 hle 2

/-- Bridge: the embedded zone-collision Boolean is exactly the real
comparison `sqrt(dx^2 + dy^2) < player_radius + zone.radius` of the source. -/
lemma check_collision_iff_sqrt (z : SlowZone) (px py pr : ℚ) :
    z.check_collision px py pr = true ↔
      Real.sqrt (((px - z.center_x : ℚ) : ℝ) ^ 2 + ((py - z.center_y : ℚ) : ℝ) ^ 2)
        < ((pr + z.radius : ℚ) : ℝ) := by
  unfold SlowZone.check_collision
  rw [decide_eq_true_iff]
  constructor
  · rintro ⟨hr, hd⟩
    have hrR : (0 : ℝ) < ((pr + z.radius : ℚ) : ℝ) := by exact_mod_cast hr
    refine (Real.sqrt_lt' hrR).mpr ?_
    push_cast
    exact_mod_cast hd
  · intro h
    have hrR : (0 : ℝ) < ((pr + z.radius : ℚ) : ℝ) :=
      lt_of_le_of_lt (Real.sqrt_nonneg _) h
    have hd := (Real.sqrt_lt' hrR).mp h
    constructor
    · exact_mod_cast hrR
    · exact_mod_cast hd

@[simp] lemma handle_input_energy (p : Player) (ks : List Key) :
    (p.handle_input ks).energy = p.energy := by rw [handle_input_eq]

@[simp] lemma handle_input_zone_flag (p : Player) (ks : List Key) :
    (p.handle_input ks).in_slow_zone = p.in_slow_zone := by rw [handle_input_eq]

@[simp] lemma integrate_energy (p : Player) : (p.integrate).energy = p.energy := rfl

@[simp] lemma integrate_max_energy (p : Player) : (p.integrate).max_energy = p.max_energy := rfl

@[simp] lemma integrate_velocity_x (p : Player) : (p.integrate).velocity_x = p.velocity_x := rfl

@[simp] lemma integrate_velocity_y (p : Player) : (p.integrate).velocity_y = p.velocity_y := rfl

@[simp] lemma integrate_cms (p : Player) :
    (p.integrate).current_max_speed = p.current_max_speed := rfl

@[simp] lemma integrate_tms (p : Player) :
    (p.integrate).target_max_speed = p.target_max_speed := rfl

@[simp] lemma updateEnergy_max_energy (s : ℚ) (p : Player) :
    (Player.updateEnergy s p).max_energy = p.max_energy := rfl

@[simp] lemma updateEnergy_velocity_x (s : ℚ) (p : Player) :
    (Player.updateEnergy s p).velocity_x = p.velocity_x := rfl

@[simp] lemma updateEnergy_velocity_y (s : ℚ) (p : Player) :
    (Player.updateEnergy s p).velocity_y = p.velocity_y := rfl

@[simp] lemma updateEnergy_cms (s : ℚ) (p : Player) :
    (Player.updateEnergy s p).current_max_speed = p.current_max_speed := rfl

@[simp] lemma updateEnergy_tms (s : ℚ) (p : Player) :
    (Player.updateEnergy s p).target_max_speed = p.target_max_speed := rfl

lemma updateEnergy_energy (s : ℚ) (p : Player) :
    (Player.updateEnergy s p).energy =
      if s > 1/10 then max 0 (p.energy - s * p.energy_consumption)
      else if p.energy < p.max_energy then min p.max_energy (p.energy + 1/5)
      else p.energy := rfl

@[simp] lemma clampVelocity_energy (s : ℚ) (p : Player) :
    (p.clampVelocity s).energy = p.energy := by rw [clampVelocity_eq]

@[simp] lemma clampVelocity_max_energy (s : ℚ) (p : Player) :
    (p.clampVelocity s).max_energy = p.max_energy := by rw [clampVelocity_eq]

@[simp] lemma clampVelocity_energy_consumption (s : ℚ) (p : Player) :
    (p.clampVelocity s).energy_consumption = p.energy_consumption := by rw [clampVelocity_eq]

@[simp] lemma clampVelocity_cms (s : ℚ) (p : Player) :
    (p.clampVelocity s).current_max_speed = p.current_max_speed := by rw [clampVelocity_eq]

@[simp] lemma clampVelocity_tms (s : ℚ) (p : Player) :
    (p.clampVelocity s).target_max_speed = p.target_max_speed := by rw [clampVelocity_eq]

@[simp] lemma preClamp_energy (p : Player) : (p.preClamp).energy = p.energy := by
  simp [Player.preClamp, Player.update_speed, Player.rampMaxSpeed, Player.updateVelocities,
    applyFriction_eq]

@[simp] lemma preClamp_max_energy (p : Player) : (p.preClamp).max_energy = p.max_energy := by
  simp [Player.preClamp, Player.update_speed, Player.rampMaxSpeed, Player.updateVelocities,
    applyFriction_eq]

@[simp] lemma preClamp_energy_consumption (p : Player) :
    (p.preClamp).energy_consumption = p.energy_consumption := by
  simp [Player.preClamp, Player.update_speed, Player.rampMaxSpeed, Player.updateVelocities,
    applyFriction_eq]

@[simp] lemma preClamp_tms (p : Player) :
    (p.preClamp).target_max_speed =
      max (lookupSpeed p.energy energy_speed_levels
            - (if p.in_slow_zone then 2 else 0)) 1 := by
  simp [Player.preClamp, Player.update_speed, Player.rampMaxSpeed, Player.updateVelocities,
    applyFriction_eq]

lemma update_tms (sq : ℚ → ℚ) (p : Player) :
    (p.update sq).target_max_speed =
      max (lookupSpeed p.energy energy_speed_levels
            - (if p.in_slow_zone then 2 else 0)) 1 := by
  unfold Player.update
  simp only [integrate_tms, updateEnergy_tms, clampVelocity_tms, preClamp_tms]

@[simp] lemma update_camera_player (g : MyGame) : (g.update_camera).player = g.player := rfl

@[simp] lemma check_slow_zones_center_x (g : MyGame) :
    ((g.check_slow_zones).player).center_x = g.player.center_x := rfl

@[simp] lemma check_slow_zones_center_y (g : MyGame) :
    ((g.check_slow_zones).player).center_y = g.player.center_y := rfl

@[simp] lemma check_slow_zones_radius (g : MyGame) :
    ((g.check_slow_zones).player).radius = g.player.radius := rfl

@[simp] lemma check_slow_zones_tms (g : MyGame) :
    ((g.check_slow_zones).player).target_max_speed = g.player.target_max_speed := rfl

@[simp] lemma check_slow_zones_zones (g : MyGame) :
    (g.check_slow_zones).slow_zones = g.slow_zones := rfl

lemma check_slow_zones_flag (g : MyGame) :
    ((g.check_slow_zones).player).in_slow_zone =
      g.slow_zones.any (fun z =>
        z.check_collision g.player.center_x g.player.center_y g.player.radius) := rfl

/-! ### Concrete states used by the claims -/

/-- The end-to-end start state: fresh game, no zones, RIGHT held down. -/
def gStart : MyGame := { MyGame.setup [] with pressed_keys := [Key.RIGHT] }

/-- A resting-input player with a unit horizontal velocity. -/
def pC2 : Player := { Player.init with velocity_x := 1 }

/-- A player with velocity (3, 4), whose speed 5 is an exact rational. -/
def pC4 : Player := { Player.init with velocity_x := 3, velocity_y := 4 }

/-- A player whose speed ceiling has ramped up to 10. -/
def pKeys : Player := { Player.init with current_max_speed := 10 }

/-! ### Claim theorems -/

/-- C1: the claim says energy exactly 100 belongs to the topmost tier, so
after the first step of the end-to-end scenario `target_max_speed = 10`.
The code disagrees: the tier scan tests `min_e ≤ energy < max_e` with a
strict upper bound on every row including `(80, 100, 10)`, so energy
exactly 100 matches no row and the for-else default `base_speed = 1` fires;
after the first `on_update` of the start state (energy 100, no zones,
RIGHT pressed) `target_max_speed` is 1, not 10.  The velocity vector stays
zero throughout that step (conjunct 4), so the constant-zero oracle is the
exact hypotenuse (`sqrt 0 = 0`) at the only point it is sampled. -/
theorem energy_exactly_100_misses_top_tier :
    lookupSpeed 100 energy_speed_levels = 1 ∧
    Player.init.energy = 100 ∧
    Player.init.in_slow_zone = false ∧
    ((gStart.player.handle_input gStart.pressed_keys).preClamp).velocity_x ^ 2
      + ((gStart.player.handle_input gStart.pressed_keys).preClamp).velocity_y ^ 2 = 0 ∧
    (gStart.on_update (fun _ => 0)).player.target_max_speed = 1 := by
  norm_num [gStart, MyGame.setup, MyGame.on_update, MyGame.check_slow_zones,
    MyGame.update_camera, Player.init, Player.update, Player.preClamp, Player.update_speed,
    Player.rampMaxSpeed, Player.updateVelocities, Player.applyFriction, Player.clampVelocity,
    Player.updateEnergy, Player.integrate, Player.handle_input, inputStep, direction_map,
    axisStep, lookupSpeed, energy_speed_levels, SCREEN_WIDTH, SCREEN_HEIGHT, PLAYER_RADIUS,
    SLOW_ZONE_RADIUS]

/-- C2 counterexample: the claim says that with both targets zero the
pre-clamp post-step velocity equals friction times the pre-step velocity.
At `velocity_x = 1` the code first applies the dead-zone-gated
deceleration interpolation (giving 0.7) and then friction, yielding
0.644 ≠ 0.92. -/
theorem friction_only_decay_refuted :
    pC2.target_velocity_x = 0 ∧ pC2.target_velocity_y = 0 ∧
    ¬ ((pC2.preClamp).velocity_x = pC2.friction * pC2.velocity_x) := by
  norm_num [pC2, Player.init, Player.preClamp, Player.update_speed, Player.rampMaxSpeed,
    Player.updateVelocities, Player.applyFriction, axisStep, lookupSpeed, energy_speed_levels]

/-- C2 amended: when both targets are zero, friction is applied in addition
to (not instead of) the dead-zone-gated interpolation: each pre-clamp
velocity component is first moved toward 0 at the deceleration rate when
its magnitude exceeds 0.1, and the result is then multiplied by the
friction coefficient. -/
theorem friction_compounds_with_deceleration (p : Player)
    (hx : p.target_velocity_x = 0) (hy : p.target_velocity_y = 0) :
    (p.preClamp).velocity_x =
      (if |p.velocity_x| > 1/10 then
        p.velocity_x + (0 - p.velocity_x) * p.deceleration_rate
       else p.velocity_x) * p.friction ∧
    (p.preClamp).velocity_y =
      (if |p.velocity_y| > 1/10 then
        p.velocity_y + (0 - p.velocity_y) * p.deceleration_rate
       else p.velocity_y) * p.friction := by
  unfold Player.preClamp
  rw [applyFriction_eq]
  simp [Player.update_speed, Player.rampMaxSpeed, Player.updateVelocities, axisStep, hx, hy]

/-- C2 witness: the amended equation evaluated at the concrete state
`pC2` (velocity_x = 1, no input): 1 ↦ (1 - 0.3) · 0.92 = 0.644. -/
theorem friction_compounds_with_deceleration_witness :
    pC2.target_velocity_x = 0 ∧ pC2.target_velocity_y = 0 ∧
    (pC2.preClamp).velocity_x =
      (if |pC2.velocity_x| > 1/10 then
        pC2.velocity_x + (0 - pC2.velocity_x) * pC2.deceleration_rate
       else pC2.velocity_x) * pC2.friction :=
  ⟨rfl, rfl, (friction_compounds_with_deceleration pC2 rfl rfl).1⟩

/-- C3: one full `Player.update` keeps the energy inside
`[0, max_energy]`: the consumption branch floors at 0 and only subtracts
(the sampled speed and the consumption rate are nonnegative), the
passive-recovery branch caps at `max_energy`, and the idle branch leaves
energy unchanged. -/
theorem energy_stays_in_range (sq : ℚ → ℚ) (p : Player)
    (hsq : ∀ a, 0 ≤ sq a) (h0 : 0 ≤ p.energy) (h1 : p.energy ≤ p.max_energy)
    (hc : 0 ≤ p.energy_consumption) :
    0 ≤ (p.update sq).energy ∧ (p.update sq).energy ≤ (p.update sq).max_energy := by
  unfold Player.update
  simp only [integrate_energy, integrate_max_energy, updateEnergy_energy,
    updateEnergy_max_energy, clampVelocity_energy, clampVelocity_max_energy,
    clampVelocity_energy_consumption, preClamp_energy, preClamp_max_energy,
    preClamp_energy_consumption]
  have hs : 0 ≤ sq ((p.preClamp).velocity_x ^ 2 + (p.preClamp).velocity_y ^ 2) := hsq _
  split_ifs with hfast hlow
  · constructor
    · exact le_max_left _ _
    · refine max_le (le_trans h0 h1) ?_
      have := mul_nonneg hs hc
      linarith
  · exact ⟨le_min (le_trans h0 h1) (by linarith), min_le_left _ _⟩
  · exact ⟨h0, h1⟩

/-- C3 witness: the invariant theorem applied to the fresh player with the
constant-zero oracle. -/
theorem energy_stays_in_range_witness :
    (0 : ℚ) ≤ Player.init.energy ∧ Player.init.energy ≤ Player.init.max_energy ∧
    0 ≤ (Player.init.update (fun _ => 0)).energy ∧
    (Player.init.update (fun _ => 0)).energy ≤ (Player.init.update (fun _ => 0)).max_energy :=
  ⟨by norm_num [Player.init, Player.update_speed],
    by norm_num [Player.init, Player.update_speed],
    (energy_stays_in_range (fun _ => 0) Player.init (fun _ => le_refl 0)
      (by norm_num [Player.init, Player.update_speed])
      (by norm_num [Player.init, Player.update_speed])
      (by norm_num [Player.init, Player.update_speed])).1,
    (energy_stays_in_range (fun _ => 0) Player.init (fun _ => le_refl 0)
      (by norm_num [Player.init, Player.update_speed])
      (by norm_num [Player.init, Player.update_speed])
      (by norm_num [Player.init, Player.update_speed])).2⟩

/-- C4: after a step the squared velocity magnitude is bounded by the
squared speed ceiling (hence `hypot(velocity_x, velocity_y)` does not
exceed `current_max_speed`): the clamp scales both components by
`current_max_speed / speed` whenever `speed` (the true square root of the
squared magnitude, per the two oracle hypotheses) exceeds the ceiling, and
no later step of the update mutates the velocity or the ceiling. -/
theorem velocity_magnitude_clamped (sq : ℚ → ℚ) (p : Player)
    (hcms : 0 ≤ p.current_max_speed) (hacc : 0 ≤ p.acceleration_rate)
    (hs0 : 0 ≤ sq ((p.preClamp).velocity_x ^ 2 + (p.preClamp).velocity_y ^ 2))
    (hs2 : sq ((p.preClamp).velocity_x ^ 2 + (p.preClamp).velocity_y ^ 2) ^ 2
            = (p.preClamp).velocity_x ^ 2 + (p.preClamp).velocity_y ^ 2) :
    (p.update sq).velocity_x ^ 2 + (p.update sq).velocity_y ^ 2
      ≤ (p.update sq).current_max_speed ^ 2 := by
  unfold Player.update
  simp only [integrate_velocity_x, integrate_velocity_y, integrate_cms,
    updateEnergy_velocity_x, updateEnergy_velocity_y, updateEnergy_cms, clampVelocity_cms]
  exact clampVelocity_sq_le _ _ (preClamp_cms_nonneg p hcms hacc) hs0 hs2

/-- C4 witness: the clamp theorem at velocity (3, 4), whose pre-clamp
magnitude 3.22 is exactly rational, with the matching constant oracle. -/
theorem velocity_magnitude_clamped_witness :
    ((0 : ℚ) ≤ pC4.current_max_speed ∧ 0 ≤ pC4.acceleration_rate ∧
      (161/50 : ℚ) ^ 2 = (pC4.preClamp).velocity_x ^ 2 + (pC4.preClamp).velocity_y ^ 2) ∧
    (pC4.update (fun _ => 161/50)).velocity_x ^ 2 + (pC4.update (fun _ => 161/50)).velocity_y ^ 2
      ≤ (pC4.update (fun _ => 161/50)).current_max_speed ^ 2 :=
  ⟨⟨by norm_num [pC4, Player.init, Player.update_speed],
    by norm_num [pC4, Player.init, Player.update_speed],
    by norm_num [pC4, Player.init, Player.preClamp, Player.update_speed, Player.rampMaxSpeed,
      Player.updateVelocities, Player.applyFriction, axisStep, lookupSpeed,
      energy_speed_levels]⟩,
    velocity_magnitude_clamped (fun _ => 161/50) pC4
      (by norm_num [pC4, Player.init, Player.update_speed])
      (by norm_num [pC4, Player.init, Player.update_speed])
      (by norm_num)
      (by norm_num [pC4, Player.init, Player.preClamp, Player.update_speed, Player.rampMaxSpeed,
        Player.updateVelocities, Player.applyFriction, axisStep, lookupSpeed,
        energy_speed_levels])⟩

/-- C5: the zone-membership flag set by `check_slow_zones` is true exactly
when some zone's Euclidean centre distance to the probed point is strictly
below `probe_radius + zone.radius`; the Boolean is invariant under
permuting the zone list; and at probe radius 20 and zone radius 60,
centre distance exactly 79 is inside (79 < 80) while 81 is outside. -/
theorem zone_membership_characterisation :
    (∀ g : MyGame,
        ((g.check_slow_zones).player).in_slow_zone = true ↔
          ∃ z ∈ g.slow_zones,
            Real.sqrt (((g.player.center_x - z.center_x : ℚ) : ℝ) ^ 2
                + ((g.player.center_y - z.center_y : ℚ) : ℝ) ^ 2)
              < ((g.player.radius + z.radius : ℚ) : ℝ)) ∧
    (∀ (zones zones2 : List SlowZone) (px py pr : ℚ), zones.Perm zones2 →
        zones.any (fun z => z.check_collision px py pr)
          = zones2.any (fun z => z.check_collision px py pr)) ∧
    (SlowZone.make 79 0).check_collision 0 0 20 = true ∧
    (SlowZone.make 81 0).check_collision 0 0 20 = false := by
  refine ⟨?_, ?_,
    by norm_num [SlowZone.make, SlowZone.check_collision, SLOW_ZONE_RADIUS],
    by norm_num [SlowZone.make, SlowZone.check_collision, SLOW_ZONE_RADIUS]⟩
  · intro g
    rw [check_slow_zones_flag, List.any_eq_true]
    constructor
    · rintro ⟨z, hz, hf⟩
      exact ⟨z, hz, (check_collision_iff_sqrt z _ _ _).mp hf⟩
    · rintro ⟨z, hz, hf⟩
      exact ⟨z, hz, (check_collision_iff_sqrt z _ _ _).mpr hf⟩
  · intro zones zones2 px py pr h
    rw [Bool.eq_iff_iff, List.any_eq_true, List.any_eq_true]
    constructor
    · rintro ⟨z, hz, hf⟩; exact ⟨z, h.mem_iff.mp hz, hf⟩
    · rintro ⟨z, hz, hf⟩; exact ⟨z, h.mem_iff.mpr hz, hf⟩

/-- C5 witness: the characterisation applied concretely — permuting a
two-zone list leaves the answer unchanged, and membership of the in-range
zone follows from the real square-root inequality `sqrt 6241 = 79 < 80`. -/
theorem zone_membership_characterisation_witness :
    ([SlowZone.make 79 0, SlowZone.make 81 0].any
        (fun z => z.check_collision 0 0 20)
      = [SlowZone.make 81 0, SlowZone.make 79 0].any
        (fun z => z.check_collision 0 0 20)) ∧
    (({ MyGame.setup [SlowZone.make 79 0] with
          pressed_keys := [] }).check_slow_zones.player).in_slow_zone = true := by
  constructor
  · exact zone_membership_characterisation.2.1 _ _ 0 0 20 (List.Perm.swap _ _ _)
  · refine (zone_membership_characterisation.1 _).mpr ?_
    refine ⟨SlowZone.make 79 0, by simp [MyGame.setup], ?_⟩
    have h1 : (((MyGame.setup [SlowZone.make 79 0]).player).center_x
        - (SlowZone.make 79 0).center_x : ℚ) = -79 := by
      norm_num [MyGame.setup, Player.init, Player.update_speed, SlowZone.make]
    have h2 : (((MyGame.setup [SlowZone.make 79 0]).player).center_y
        - (SlowZone.make 79 0).center_y : ℚ) = 0 := by
      norm_num [MyGame.setup, Player.init, Player.update_speed, SlowZone.make]
    have h3 : (((MyGame.setup [SlowZone.make 79 0]).player).radius
        + (SlowZone.make 79 0).radius : ℚ) = 80 := by
      norm_num [MyGame.setup, Player.init, Player.update_speed, SlowZone.make,
        SLOW_ZONE_RADIUS, PLAYER_RADIUS]
    rw [h1, h2, h3]
    have : (((-79 : ℚ) : ℝ) ^ 2 + ((0 : ℚ) : ℝ) ^ 2) = 79 ^ 2 := by norm_num
    rw [this, Real.sqrt_sq (by norm_num)]
    norm_num

/-- C6: a tick runs handle_input, Player.update, check_slow_zones,
update_camera in that order, so the speed lookup inside `Player.update`
reads the `in_slow_zone` flag as it stood at the start of the tick (the
value stored at the end of the previous tick), while the flag left behind
by the tick is recomputed from the post-movement position (one-tick lag). -/
theorem tick_uses_previous_zone_flag (sq : ℚ → ℚ) (g : MyGame) :
    ((g.on_update sq).player).target_max_speed =
      max (lookupSpeed g.player.energy energy_speed_levels
            - (if g.player.in_slow_zone then 2 else 0)) 1 ∧
    ((g.on_update sq).player).in_slow_zone =
      g.slow_zones.any (fun z =>
        z.check_collision ((g.on_update sq).player).center_x
          ((g.on_update sq).player).center_y ((g.on_update sq).player).radius) := by
  unfold MyGame.on_update
  constructor
  · simp only [update_camera_player, check_slow_zones_tms, update_tms,
      handle_input_energy, handle_input_zone_flag]
  · simp only [update_camera_player, check_slow_zones_flag, check_slow_zones_zones,
      check_slow_zones_center_x, check_slow_zones_center_y, check_slow_zones_radius]

/-- C7: the camera starts exactly on its target
(`player.center - screen/2`, with 1000 // 2 = 500 and 700 // 2 = 350
exact), each update moves the origin by one tenth of the remaining gap
per axis without touching the player, and therefore the residual distance
to the target of a stationary player shrinks by the factor 9/10 exactly. -/
theorem camera_init_exact_and_geometric_decay :
    (∀ zones : List SlowZone,
        (MyGame.setup zones).camera_x
            = ((MyGame.setup zones).player).center_x - SCREEN_WIDTH / 2 ∧
        (MyGame.setup zones).camera_y
            = ((MyGame.setup zones).player).center_y - SCREEN_HEIGHT / 2) ∧
    (∀ g : MyGame,
        (g.update_camera).player = g.player ∧
        (g.update_camera).camera_x
            = g.camera_x + ((g.player.center_x - SCREEN_WIDTH / 2) - g.camera_x) * (1/10) ∧
        (g.update_camera).camera_y
            = g.camera_y + ((g.player.center_y - SCREEN_HEIGHT / 2) - g.camera_y) * (1/10) ∧
        |(g.player.center_x - SCREEN_WIDTH / 2) - (g.update_camera).camera_x|
            = (9/10) * |(g.player.center_x - SCREEN_WIDTH / 2) - g.camera_x| ∧
        |(g.player.center_y - SCREEN_HEIGHT / 2) - (g.update_camera).camera_y|
            = (9/10) * |(g.player.center_y - SCREEN_HEIGHT / 2) - g.camera_y|) := by
  constructor
  · intro zones
    exact ⟨rfl, rfl⟩
  · intro g
    refine ⟨rfl, rfl, rfl, ?_, ?_⟩
    · have e : (g.player.center_x - SCREEN_WIDTH / 2) - (g.update_camera).camera_x
          = (9/10) * ((g.player.center_x - SCREEN_WIDTH / 2) - g.camera_x) := by
        show (g.player.center_x - SCREEN_WIDTH / 2)
            - (g.camera_x + ((g.player.center_x - SCREEN_WIDTH / 2) - g.camera_x) * (1/10))
          = (9/10) * ((g.player.center_x - SCREEN_WIDTH / 2) - g.camera_x)
        ring
      rw [e, abs_mul, abs_of_nonneg (by norm_num : (0:ℚ) ≤ 9/10)]
    · have e : (g.player.center_y - SCREEN_HEIGHT / 2) - (g.update_camera).camera_y
          = (9/10) * ((g.player.center_y - SCREEN_HEIGHT / 2) - g.camera_y) := by
        show (g.player.center_y - SCREEN_HEIGHT / 2)
            - (g.camera_y + ((g.player.center_y - SCREEN_HEIGHT / 2) - g.camera_y) * (1/10))
          = (9/10) * ((g.player.center_y - SCREEN_HEIGHT / 2) - g.camera_y)
        ring
      rw [e, abs_mul, abs_of_nonneg (by norm_num : (0:ℚ) ≤ 9/10)]

/-- C8: the clamp's division `current_max_speed / speed` sits behind the
guard `speed > current_max_speed`; with a nonnegative ceiling the guard
implies `speed ≠ 0`, and at `speed = 0` the scaling branch is skipped
entirely, leaving the player unchanged. -/
theorem clamp_guard_no_div_by_zero (speed : ℚ) (p : Player)
    (h : 0 ≤ p.current_max_speed) :
    (speed > p.current_max_speed → speed ≠ 0) ∧
    (speed = 0 → p.clampVelocity speed = p) := by
  constructor
  · intro hgt
    exact ne_of_gt (lt_of_le_of_lt h hgt)
  · intro h0
    subst h0
    unfold Player.clampVelocity
    rw [if_neg (not_lt.mpr h)]

/-- C8 witness: the guard theorem at speed 0 on the fresh player. -/
theorem clamp_guard_no_div_by_zero_witness :
    (0 : ℚ) ≤ Player.init.current_max_speed ∧
    Player.init.clampVelocity 0 = Player.init :=
  ⟨by norm_num [Player.init, Player.update_speed],
    (clamp_guard_no_div_by_zero 0 Player.init
      (by norm_num [Player.init, Player.update_speed])).2 rfl⟩

/-- C9: the basic organism keeps no energy invariant: `Cell.update`
subtracts exactly the metabolism cost 0.5 with no floor (energy goes
negative whenever it starts below 0.5), `add_energy` adds with no cap,
and `is_alive` is exactly `energy > 0`. -/
theorem cell_energy_no_clamps (x y vx vy e r amount : ℚ) :
    (Cell.init x y vx vy e r).metabolism_cost = 1/2 ∧
    ((Cell.init x y vx vy e r).update).energy = e - 1/2 ∧
    (e < 1/2 → ((Cell.init x y vx vy e r).update).energy < 0) ∧
    ((Cell.init x y vx vy e r).add_energy amount).energy = e + amount ∧
    ((Cell.init x y vx vy e r).is_alive = true ↔ e > 0) := by
  refine ⟨rfl, rfl, ?_, rfl, ?_⟩
  · intro h
    show e - 1/2 < 0
    linarith
  · simp [Cell.is_alive, Cell.init]

/-- C9 witness: a cell created with zero energy is at −0.5 after one
update. -/
theorem cell_energy_no_clamps_witness :
    (0 : ℚ) < 1/2 ∧ ((Cell.init 0 0 0 0 0 5).update).energy < 0 :=
  ⟨by norm_num, (cell_energy_no_clamps 0 0 0 0 0 5 0).2.2.1 (by norm_num)⟩

/-- C10: two distinct pressed keys mapped to the same direction both
contribute: the per-key loop of `handle_input` sums the scaled direction
vectors rather than deduplicating them into logical cardinal directions,
so the resulting target velocity is `2 · d · current_max_speed`. -/
theorem duplicate_direction_keys_sum (p : Player) (k1 k2 : Key) (d : ℚ × ℚ)
    (_hne : k1 ≠ k2) (h1 : direction_map k1 = some d) (h2 : direction_map k2 = some d) :
    (p.handle_input [k1, k2]).target_velocity_x = 2 * d.1 * p.current_max_speed ∧
    (p.handle_input [k1, k2]).target_velocity_y = 2 * d.2 * p.current_max_speed := by
  obtain ⟨dx, dy⟩ := d
  rw [handle_input_eq]
  simp only [dirSum, h1, h2]
  constructor <;> ring

/-- C10 witness: W and UP (distinct key codes, same direction (0, 1)) at
ceiling 10 give a vertical target of 20 = 2 · 10. -/
theorem duplicate_direction_keys_sum_witness :
    Key.W ≠ Key.UP ∧
    (pKeys.handle_input [Key.W, Key.UP]).target_velocity_y
      = 2 * (0, (1:ℚ)).2 * pKeys.current_max_speed :=
  ⟨by decide,
    (duplicate_direction_keys_sum pKeys Key.W Key.UP (0, 1) (by decide) rfl rfl).2⟩

end CellEvolution
